import Mathlib

/-!
Verification of the GETRF dispatch layer of `jaxlib/gpu/solver_kernels_ffi.cc`.

The file shallowly embeds the dispatch layer: `GetrfDispatch` validates the
element types, splits the input dimensions into `(batch, rows, cols)`, and
chooses between the looped single-matrix path (`GetrfImpl`) and the batched
path (`GetrfBatchedImpl`).  External collaborators (handle pools, the scratch
allocator, the vendor kernels, the async memcpy, the batch-pointer builder)
are modelled by an environment record `Env` describing their outcomes, and
each dispatch produces, besides its result, a trace of the calls it issued
and the list of per-matrix info codes written.
-/

namespace SolverFfi

/-- Error codes of the FFI error type.  The layer under verification only
ever constructs `kInvalidArgument` and `kUnknown`; the other constructors
exist so that this is a statement, not a tautology. -/
inductive ErrorCode where
  | kInvalidArgument
  | kUnknown
  | kInternal
  | kFailedPrecondition
  | kUnimplemented
  deriving DecidableEq, Repr

/-- Structured error result: a `(code, message)` pair, as in `ffi::Error`. -/
structure FfiError where
  code : ErrorCode
  message : String
  deriving DecidableEq, Repr

/-- Buffer element types.  `F32/F64/C64/C128` are the types the getrf
dispatch supports; the others stand for any unsupported element type. -/
inductive DataType where
  | F32
  | F64
  | C64
  | C128
  | S32
  | S64
  | F16
  deriving DecidableEq, Repr

/-- Size in bytes of one element, `sizeof(T)` of the instantiated template
(`float`, `double`, `gpuComplex`, `gpuDoubleComplex`). -/
def sizeOfElem : DataType → Nat
  | .F32 => 4
  | .F64 => 8
  | .C64 => 8
  | .C128 => 16
  | _ => 0

/-- The element types for which the dispatcher has a code path. -/
def supportedType : DataType → Bool
  | .F32 => true
  | .F64 => true
  | .C64 => true
  | .C128 => true
  | _ => false

/-- Calls the dispatch layer issues to its collaborators, in issue order.
`kernelRun i o p q` is the `i`-th single-matrix `GetrfKernel<T>::Run` with the
buffer cursor at element offset `o`, the pivot cursor at `p` and the info
cursor at `q`.  `batchedRun n lda b` is `GetrfBatchedKernel<T>::Run` with
matrix order `n`, leading dimension `lda` and the (narrowed) batch argument
`b`.  `makeBatchPointers c s` is `MakeBatchPointersAsync` with (narrowed)
count `c` and byte stride `s`. -/
inductive Event where
  | borrowSolver
  | borrowBlas
  | bufferSizeQuery (m n : Nat)
  | allocate (bytes : Nat)
  | memcpy (bytes : Nat)
  | kernelRun (i outOff pivOff infoOff : Nat)
  | makeBatchPointers (count : Int) (strideBytes : Nat)
  | batchedRun (n lda : Nat) (batchArg : Int)
  deriving DecidableEq, Repr

/-- Calls into the vendor numerical libraries (cuSOLVER / cuBLAS and the
batch-pointer kernel): the workspace-size query, the single-matrix
factorization, the pointer-array build and the batched factorization. -/
def Event.isBackendCall : Event → Bool
  | .bufferSizeQuery _ _ => true
  | .kernelRun _ _ _ _ => true
  | .makeBatchPointers _ _ => true
  | .batchedRun _ _ _ => true
  | _ => false

/-- Factorization calls proper (single-matrix or batched). -/
def Event.isFactorization : Event → Bool
  | .kernelRun _ _ _ _ => true
  | .batchedRun _ _ _ => true
  | _ => false

/-- Recognizer for the single-matrix factorization call. -/
def Event.isKernelRun : Event → Bool
  | .kernelRun _ _ _ _ => true
  | _ => false

/-- C++ narrowing conversion of a nonnegative 64-bit value to a 32-bit
signed `int`: reduce modulo `2^32` and reinterpret in two's complement. -/
def toInt32 (x : Nat) : Int :=
  if x % 2 ^ 32 < 2 ^ 31 then ((x % 2 ^ 32 : Nat) : Int)
  else ((x % 2 ^ 32 : Nat) : Int) - 2 ^ 32

/-- Outcomes of the external collaborators for one dispatch call.
Field order: `borrowSolverOk`, `borrowBlasOk`, `bufferSize`, `allocOk`,
`memcpyOk`, `runStatus`, `runInfo`, `makeBatchOk`, `batchedStatus`,
`batchedInfo`, `aliased`. -/
structure Env where
  /-- `SolverHandlePool::Borrow` succeeds. -/
  borrowSolverOk : Bool
  /-- `BlasHandlePool::Borrow` succeeds. -/
  borrowBlasOk : Bool
  /-- Result of `GetrfKernel<T>::BufferSize`; `none` means the query fails. -/
  bufferSize : Option Nat
  /-- Whether `scratch.Allocate(bytes)` returns an address. -/
  allocOk : Nat → Bool
  /-- `gpuMemcpyAsync` succeeds. -/
  memcpyOk : Bool
  /-- Status of the `i`-th single-matrix `Run` (false = backend-call failure;
  a singular matrix is NOT a status failure, it only shows in the info code). -/
  runStatus : Nat → Bool
  /-- Info code the `i`-th single-matrix `Run` writes. -/
  runInfo : Nat → Int
  /-- `gpuGetLastError` after `MakeBatchPointersAsync` reports no error. -/
  makeBatchOk : Bool
  /-- Status of the batched `Run`. -/
  batchedStatus : Bool
  /-- Info code the batched `Run` writes for matrix `i`. -/
  batchedInfo : Nat → Int
  /-- The input and output buffers are the same device allocation. -/
  aliased : Bool

/-- Observable outcome of one dispatch: the `ffi::Error` result (`none` is
success), the trace of issued calls, and the info codes written. -/
structure DispatchOut where
  result : Option FfiError
  trace : List Event
  infos : List Int
  deriving DecidableEq, Repr

/-- Error for mismatched input/output element types (source line 162). -/
def typeMismatchError : FfiError :=
  ⟨.kInvalidArgument, "The input and output to getrf must have the same element type"⟩

/-- Error for an unsupported element type (source line 197). -/
def unsupportedError : FfiError :=
  ⟨.kInvalidArgument, "Unsupported element type for getrf"⟩

/-- Modelled from the spec: `MaybeCastNoOverflow` (from `jaxlib/ffi_helpers.h`,
not part of the file under verification) rejects a dimension that does not
fit a 32-bit signed integer with an `InvalidArgument` error. -/
def castError : FfiError :=
  ⟨.kInvalidArgument, "overflow when casting dimension to 32-bit signed integer"⟩

/-- Modelled from the spec: handle-creation failure is surfaced as a
dispatch-level runtime failure (`Unknown`). -/
def borrowError : FfiError := ⟨.kUnknown, "failed to create handle"⟩

/-- Modelled from the spec: a backend-call failure is reported as `Unknown`. -/
def bufferSizeError : FfiError := ⟨.kUnknown, "getrf workspace size query failed"⟩

/-- Modelled from the spec: a device-copy failure is a runtime failure. -/
def memcpyError : FfiError := ⟨.kUnknown, "gpuMemcpyAsync failed"⟩

/-- Modelled from the spec: a failing single-matrix `Run` status. -/
def runCallError : FfiError := ⟨.kUnknown, "getrf kernel failed"⟩

/-- Modelled from the spec: a device-side launch error detected by
`gpuGetLastError` after the pointer-array build. -/
def launchError : FfiError := ⟨.kUnknown, "batch pointers kernel launch failed"⟩

/-- Modelled from the spec: a failing batched `Run` status. -/
def batchedCallError : FfiError := ⟨.kUnknown, "batched getrf kernel failed"⟩

/-- The per-matrix loop of `GetrfImpl` (source lines 93-99): one
`GetrfKernel<T>::Run` per index, the buffer cursor advancing by
`rows*cols`, the pivot cursor by `min rows cols` and the info cursor by `1`
after each call; a failing call status aborts the loop.  The source's loop
index is a 32-bit `int` compared against the 64-bit `batch`; the embedding
iterates an ideal index list, which coincides with the source exactly when
`batch < 2^31` — beyond that the source's index increment is signed-overflow
undefined behavior and the loop cannot complete `batch` iterations, so every
looped-path theorem below is stated under `batch < 2^31`. -/
def runLoop (env : Env) (rows cols : Nat) : List Nat → List Event × List Int × Option FfiError
  | [] => ([], [], none)
  | i :: rest =>
    let ev := Event.kernelRun i (i * (rows * cols)) (i * min rows cols) i
    if env.runStatus i then
      let r := runLoop env rows cols rest
      (ev :: r.1, env.runInfo i :: r.2.1, r.2.2)
    else
      ([ev], [], some runCallError)

/-- Assemble the outcome of the looped path after the copy step. -/
def finishLooped (env : Env) (rows cols batch : Nat) (pre : List Event) : DispatchOut :=
  let r := runLoop env rows cols (List.range batch)
  ⟨r.2.2, pre ++ r.1, r.2.1⟩

/-- Looped path `GetrfImpl<T>` (source lines 63-101): overflow-checked casts
of `rows` and `cols`, solver-handle borrow, workspace-size query, scratch
allocation of `sizeof(T) * lwork` bytes, device copy when input and output
are distinct, then one single-matrix `Run` per matrix.  The batch count is
never overflow-checked; see `runLoop` for the 32-bit loop-index caveat that
confines the per-matrix loop model (hence the looped-path theorems) to
`batch < 2^31`. -/
def GetrfImpl (env : Env) (s : Nat) (batch rows cols : Nat) : DispatchOut :=
  if 2 ^ 31 ≤ rows then ⟨some castError, [], []⟩
  else if 2 ^ 31 ≤ cols then ⟨some castError, [], []⟩
  else if env.borrowSolverOk then
    match env.bufferSize with
    | none => ⟨some bufferSizeError, [.borrowSolver, .bufferSizeQuery rows cols], []⟩
    | some lwork =>
      let pre := [Event.borrowSolver, Event.bufferSizeQuery rows cols,
        Event.allocate (s * lwork)]
      if env.allocOk (s * lwork) then
        if env.aliased then
          finishLooped env rows cols batch pre
        else
          let pre2 := pre ++ [Event.memcpy (s * (batch * rows * cols))]
          if env.memcpyOk then finishLooped env rows cols batch pre2
          else ⟨some memcpyError, pre2, []⟩
      else ⟨some ⟨.kUnknown, "Unable to allocate workspace for getrf"⟩, pre, []⟩
  else ⟨some borrowError, [.borrowSolver], []⟩

/-- Tail of the batched path from the pointer-array build on (source lines
146-153): `MakeBatchPointersAsync` with the narrowed batch count and stride
`sizeof(T) * n * n`, the launch-error check, then one batched `Run` with
order `n = cols`, leading dimension `n` and the narrowed batch count. -/
def finishBatched (env : Env) (s batch cols : Nat) (pre : List Event) : DispatchOut :=
  let b32 := toInt32 batch
  let pre2 := pre ++ [Event.makeBatchPointers b32 (s * (cols * cols))]
  if env.makeBatchOk then
    let pre3 := pre2 ++ [Event.batchedRun cols cols b32]
    if env.batchedStatus then
      ⟨none, pre3, (List.range b32.toNat).map env.batchedInfo⟩
    else ⟨some batchedCallError, pre3, []⟩
  else ⟨some launchError, pre2, []⟩

/-- Batched path `GetrfBatchedImpl<T>` (source lines 120-154):
overflow-checked cast of `cols` only, blas-handle borrow, scratch allocation
of `sizeof(void*) * batch` bytes, device copy of `sizeof(T)*batch*cols*cols`
bytes when input and output are distinct, pointer-array build, one batched
`Run`.  `rows` is not a parameter: the batched path uses `cols` throughout. -/
def GetrfBatchedImpl (env : Env) (s : Nat) (batch cols : Nat) : DispatchOut :=
  if 2 ^ 31 ≤ cols then ⟨some castError, [], []⟩
  else if env.borrowBlasOk then
    let pre := [Event.borrowBlas, Event.allocate (8 * batch)]
    if env.allocOk (8 * batch) then
      if env.aliased then finishBatched env s batch cols pre
      else
        let pre2 := pre ++ [Event.memcpy (s * (batch * cols * cols))]
        if env.memcpyOk then finishBatched env s batch cols pre2
        else ⟨some memcpyError, pre2, []⟩
    else ⟨some ⟨.kUnknown, "Unable to allocate workspace for batched getrf"⟩, pre, []⟩
  else ⟨some borrowError, [.borrowBlas], []⟩

/-- Modelled from the spec: `SplitBatch2D` (from `jaxlib/ffi_helpers.h`, not
part of the file under verification) decomposes the input shape into
`(batch, rows, cols)` — the batch count is the product of all leading
dimensions, `rows` and `cols` are the trailing two — and rejects a shape
with fewer than two dimensions with an `InvalidArgument` error. -/
def SplitBatch2D (dims : List Nat) : Except FfiError (Nat × Nat × Nat) :=
  match dims.reverse with
  | cols :: rows :: rest => .ok (rest.prod, rows, cols)
  | _ => .error ⟨.kInvalidArgument, "getrf requires an input with at least 2 dimensions"⟩

/-- Dispatch entry point `GetrfDispatch` (source lines 156-199): element
types of input and output must match, the shape must split into
`(batch, rows, cols)`, then the batched path is taken iff
`batch > 1 && rows == cols && rows / batch <= 128`, with a four-way element
type dispatch in each branch and `InvalidArgument` for any other type. -/
def GetrfDispatch (env : Env) (dtIn dtOut : DataType) (dims : List Nat) : DispatchOut :=
  if dtIn ≠ dtOut then ⟨some typeMismatchError, [], []⟩
  else
    match SplitBatch2D dims with
    | .error e => ⟨some e, [], []⟩
    | .ok (batch, rows, cols) =>
      if batch > 1 ∧ rows = cols ∧ rows / batch ≤ 128 then
        match dtIn with
        | .F32 => GetrfBatchedImpl env 4 batch cols
        | .F64 => GetrfBatchedImpl env 8 batch cols
        | .C64 => GetrfBatchedImpl env 8 batch cols
        | .C128 => GetrfBatchedImpl env 16 batch cols
        | _ => ⟨some unsupportedError, [], []⟩
      else
        match dtIn with
        | .F32 => GetrfImpl env 4 batch rows cols
        | .F64 => GetrfImpl env 8 batch rows cols
        | .C64 => GetrfImpl env 8 batch rows cols
        | .C128 => GetrfImpl env 16 batch rows cols
        | _ => ⟨some unsupportedError, [], []⟩

/-- All external collaborators succeed (any info codes: the info functions
are unconstrained, so per-matrix numerical failure is allowed). -/
def Env.allOk (env : Env) : Prop :=
  env.borrowSolverOk = true ∧ env.borrowBlasOk = true ∧
  env.bufferSize.isSome = true ∧ (∀ b, env.allocOk b = true) ∧
  env.memcpyOk = true ∧ (∀ i, env.runStatus i = true) ∧
  env.makeBatchOk = true ∧ env.batchedStatus = true

/-- Matrix `i` of the batch was covered by a factorization call: either its
own single-matrix call, or a batched call whose batch argument covers `i`. -/
def coversMatrix (trace : List Event) (i : Nat) : Prop :=
  (∃ o p q, Event.kernelRun i o p q ∈ trace) ∨
  (∃ n lda b, Event.batchedRun n lda b ∈ trace ∧ (i : Int) < b)

/-- Environment in which every collaborator succeeds, the workspace-size
query returns 16, every info code is 0, and the input and output buffers are
distinct allocations. -/
def allOkEnv : Env :=
  ⟨true, true, some 16, fun _ => true, true, fun _ => true, fun _ => 0,
    true, true, fun _ => 0, false⟩

/-- Like `allOkEnv` but the scratch allocator always returns empty. -/
def noAllocEnv : Env :=
  ⟨true, true, some 16, fun _ => false, true, fun _ => true, fun _ => 0,
    true, true, fun _ => 0, false⟩

/-- Like `allOkEnv` but input and output are the same allocation. -/
def aliasedEnv : Env :=
  ⟨true, true, some 16, fun _ => true, true, fun _ => true, fun _ => 0,
    true, true, fun _ => 0, true⟩

/-! ## Helper lemmas -/

theorem toInt32_of_lt {x : Nat} (h : x < 2 ^ 31) : toInt32 x = x := by
  unfold toInt32
  have hm : x % 2 ^ 32 = x := Nat.mod_eq_of_lt (by omega)
  rw [hm, if_pos h]

theorem runLoop_ok (env : Env) (rows cols : Nat)
    (hrun : ∀ i, env.runStatus i = true) (l : List Nat) :
    runLoop env rows cols l =
      (l.map (fun i => Event.kernelRun i (i * (rows * cols)) (i * min rows cols) i),
       l.map env.runInfo, none) := by
  induction l with
  | nil => rfl
  | cons i rest ih => simp [runLoop, hrun i, ih]

theorem dispatch_batched (env : Env) (dt : DataType) (dims : List Nat)
    (batch rows cols : Nat) (hdt : supportedType dt = true)
    (hsplit : SplitBatch2D dims = .ok (batch, rows, cols))
    (hp : batch > 1 ∧ rows = cols ∧ rows / batch ≤ 128) :
    GetrfDispatch env dt dt dims = GetrfBatchedImpl env (sizeOfElem dt) batch cols := by
  unfold GetrfDispatch
  rw [if_neg (fun h => h rfl), hsplit]
  dsimp only
  rw [if_pos hp]
  cases dt <;> simp_all [supportedType, sizeOfElem]

theorem dispatch_looped (env : Env) (dt : DataType) (dims : List Nat)
    (batch rows cols : Nat) (hdt : supportedType dt = true)
    (hsplit : SplitBatch2D dims = .ok (batch, rows, cols))
    (hnp : ¬ (batch > 1 ∧ rows = cols ∧ rows / batch ≤ 128)) :
    GetrfDispatch env dt dt dims = GetrfImpl env (sizeOfElem dt) batch rows cols := by
  unfold GetrfDispatch
  rw [if_neg (fun h => h rfl), hsplit]
  dsimp only
  rw [if_neg hnp]
  cases dt <;> simp_all [supportedType, sizeOfElem]

theorem GetrfImpl_allOk_noalias (env : Env) (s batch rows cols lwork : Nat)
    (hok : env.allOk) (hb : env.bufferSize = some lwork)
    (hrows : rows < 2 ^ 31) (hcols : cols < 2 ^ 31) (ha : env.aliased = false) :
    GetrfImpl env s batch rows cols =
      ⟨none,
       [Event.borrowSolver, Event.bufferSizeQuery rows cols, Event.allocate (s * lwork),
        Event.memcpy (s * (batch * rows * cols))] ++
         (List.range batch).map
           (fun i => Event.kernelRun i (i * (rows * cols)) (i * min rows cols) i),
       (List.range batch).map env.runInfo⟩ := by
  obtain ⟨h1, h2, h3, h4, h5, h6, h7, h8⟩ := hok
  have hr : ¬ (2 ^ 31 ≤ rows) := by omega
  have hc : ¬ (2 ^ 31 ≤ cols) := by omega
  unfold GetrfImpl
  rw [if_neg hr, if_neg hc]
  simp [h1, hb, h4, ha, h5, finishLooped, runLoop_ok env rows cols h6]

theorem GetrfImpl_allOk_alias (env : Env) (s batch rows cols lwork : Nat)
    (hok : env.allOk) (hb : env.bufferSize = some lwork)
    (hrows : rows < 2 ^ 31) (hcols : cols < 2 ^ 31) (ha : env.aliased = true) :
    GetrfImpl env s batch rows cols =
      ⟨none,
       [Event.borrowSolver, Event.bufferSizeQuery rows cols, Event.allocate (s * lwork)] ++
         (List.range batch).map
           (fun i => Event.kernelRun i (i * (rows * cols)) (i * min rows cols) i),
       (List.range batch).map env.runInfo⟩ := by
  obtain ⟨h1, h2, h3, h4, h5, h6, h7, h8⟩ := hok
  have hr : ¬ (2 ^ 31 ≤ rows) := by omega
  have hc : ¬ (2 ^ 31 ≤ cols) := by omega
  unfold GetrfImpl
  rw [if_neg hr, if_neg hc]
  simp [h1, hb, h4, ha, finishLooped, runLoop_ok env rows cols h6]

theorem GetrfBatchedImpl_allOk_noalias (env : Env) (s batch cols : Nat)
    (hok : env.allOk) (hcols : cols < 2 ^ 31) (ha : env.aliased = false) :
    GetrfBatchedImpl env s batch cols =
      ⟨none,
       [Event.borrowBlas, Event.allocate (8 * batch),
        Event.memcpy (s * (batch * cols * cols)),
        Event.makeBatchPointers (toInt32 batch) (s * (cols * cols)),
        Event.batchedRun cols cols (toInt32 batch)],
       (List.range (toInt32 batch).toNat).map env.batchedInfo⟩ := by
  obtain ⟨h1, h2, h3, h4, h5, h6, h7, h8⟩ := hok
  have hc : ¬ (2 ^ 31 ≤ cols) := by omega
  unfold GetrfBatchedImpl
  rw [if_neg hc]
  simp [h2, h4, ha, h5, finishBatched, h7, h8]

theorem GetrfBatchedImpl_allOk_alias (env : Env) (s batch cols : Nat)
    (hok : env.allOk) (hcols : cols < 2 ^ 31) (ha : env.aliased = true) :
    GetrfBatchedImpl env s batch cols =
      ⟨none,
       [Event.borrowBlas, Event.allocate (8 * batch),
        Event.makeBatchPointers (toInt32 batch) (s * (cols * cols)),
        Event.batchedRun cols cols (toInt32 batch)],
       (List.range (toInt32 batch).toNat).map env.batchedInfo⟩ := by
  obtain ⟨h1, h2, h3, h4, h5, h6, h7, h8⟩ := hok
  have hc : ¬ (2 ^ 31 ≤ cols) := by omega
  unfold GetrfBatchedImpl
  rw [if_neg hc]
  simp [h2, h4, ha, finishBatched, h7, h8]

theorem runLoop_error_code (env : Env) (rows cols : Nat) (l : List Nat)
    (e : FfiError) (h : (runLoop env rows cols l).2.2 = some e) :
    e.code = .kUnknown := by
  induction l with
  | nil => simp [runLoop] at h
  | cons i rest ih =>
    by_cases hr : env.runStatus i = true
    · simp only [runLoop, hr, if_true] at h
      exact ih h
    · simp only [runLoop, hr, if_false, Bool.false_eq_true, Option.some.injEq] at h
      subst h
      rfl

theorem SplitBatch2D_error_code (dims : List Nat) (e : FfiError)
    (h : SplitBatch2D dims = .error e) : e.code = .kInvalidArgument := by
  unfold SplitBatch2D at h
  split at h
  · simp at h
  · simp only [Except.error.injEq] at h
    subst h
    rfl

theorem GetrfImpl_error_code (env : Env) (s batch rows cols : Nat) (e : FfiError)
    (h : (GetrfImpl env s batch rows cols).result = some e) :
    e.code = .kInvalidArgument ∨ e.code = .kUnknown := by
  unfold GetrfImpl finishLooped at h
  repeat' split at h
  all_goals dsimp only at h
  all_goals first
    | exact Or.inr (runLoop_error_code env rows cols _ e h)
    | (simp only [Option.some.injEq] at h
       subst h
       first | exact Or.inl rfl | exact Or.inr rfl)

theorem GetrfBatchedImpl_error_code (env : Env) (s batch cols : Nat) (e : FfiError)
    (h : (GetrfBatchedImpl env s batch cols).result = some e) :
    e.code = .kInvalidArgument ∨ e.code = .kUnknown := by
  unfold GetrfBatchedImpl finishBatched at h
  repeat' split at h
  all_goals dsimp only at h
  all_goals first
    | exact Option.noConfusion h
    | (simp only [Option.some.injEq] at h
       subst h
       first | exact Or.inl rfl | exact Or.inr rfl)

/-! ## Claims -/

/-- C1: for every input whose element type is supported and whose dimensions
decompose into `(batch, rows, cols)`, the dispatcher selects the batched code
path (`GetrfBatchedImpl`) iff `batch > 1` and `rows = cols` and
`rows / batch ≤ 128` (integer division); for every other valid shape it
selects the looped code path (`GetrfImpl`). -/
theorem getrf_dispatch_strategy_selection (env : Env) (dt : DataType)
    (dims : List Nat) (batch rows cols : Nat)
    (hdt : supportedType dt = true)
    (hsplit : SplitBatch2D dims = .ok (batch, rows, cols)) :
    (batch > 1 ∧ rows = cols ∧ rows / batch ≤ 128 →
      GetrfDispatch env dt dt dims = GetrfBatchedImpl env (sizeOfElem dt) batch cols) ∧
    (¬ (batch > 1 ∧ rows = cols ∧ rows / batch ≤ 128) →
      GetrfDispatch env dt dt dims = GetrfImpl env (sizeOfElem dt) batch rows cols) :=
  ⟨fun hp => dispatch_batched env dt dims batch rows cols hdt hsplit hp,
   fun hnp => dispatch_looped env dt dims batch rows cols hdt hsplit hnp⟩

/-- Witness for C1 at `dims = [3, 2, 2]`: batch 3, rows = cols = 2,
`2 / 3 = 0 ≤ 128`, so the batched path is selected. -/
theorem getrf_dispatch_strategy_selection_witness :
    (3 > 1 ∧ 2 = 2 ∧ 2 / 3 ≤ 128 →
      GetrfDispatch allOkEnv .F32 .F32 [3, 2, 2]
        = GetrfBatchedImpl allOkEnv (sizeOfElem .F32) 3 2) ∧
    (¬ (3 > 1 ∧ 2 = 2 ∧ 2 / 3 ≤ 128) →
      GetrfDispatch allOkEnv .F32 .F32 [3, 2, 2]
        = GetrfImpl allOkEnv (sizeOfElem .F32) 3 2 2) :=
  getrf_dispatch_strategy_selection allOkEnv .F32 [3, 2, 2] 3 2 2 rfl rfl

/-- C4: every error result of the dispatch entry point carries one of exactly
two codes, `kInvalidArgument` or `kUnknown`. -/
theorem getrf_error_codes_limited (env : Env) (dtIn dtOut : DataType)
    (dims : List Nat) (e : FfiError)
    (h : (GetrfDispatch env dtIn dtOut dims).result = some e) :
    e.code = .kInvalidArgument ∨ e.code = .kUnknown := by
  unfold GetrfDispatch at h
  split at h
  · simp only [Option.some.injEq] at h
    subst h
    exact Or.inl rfl
  · split at h
    · simp only [Option.some.injEq] at h
      subst h
      exact Or.inl (SplitBatch2D_error_code dims _ (by assumption))
    · split at h
      · split at h
        · exact GetrfBatchedImpl_error_code env 4 _ _ e h
        · exact GetrfBatchedImpl_error_code env 8 _ _ e h
        · exact GetrfBatchedImpl_error_code env 8 _ _ e h
        · exact GetrfBatchedImpl_error_code env 16 _ _ e h
        · simp only [Option.some.injEq] at h
          subst h
          exact Or.inl rfl
      · split at h
        · exact GetrfImpl_error_code env 4 _ _ _ e h
        · exact GetrfImpl_error_code env 8 _ _ _ e h
        · exact GetrfImpl_error_code env 8 _ _ _ e h
        · exact GetrfImpl_error_code env 16 _ _ _ e h
        · simp only [Option.some.injEq] at h
          subst h
          exact Or.inl rfl

/-- Witness for C4 at a type-mismatched dispatch, whose error is
`typeMismatchError` with code `kInvalidArgument`. -/
theorem getrf_error_codes_limited_witness :
    typeMismatchError.code = .kInvalidArgument ∨ typeMismatchError.code = .kUnknown :=
  getrf_error_codes_limited allOkEnv .F32 .F64 [2, 2] typeMismatchError rfl

/-- C5: a dispatch whose input element type differs from the output element
type returns `kInvalidArgument` with an empty trace: no copy, no handle
borrow, no backend call. -/
theorem getrf_type_mismatch_no_device_work (env : Env) (dtIn dtOut : DataType)
    (dims : List Nat) (h : dtIn ≠ dtOut) :
    (GetrfDispatch env dtIn dtOut dims).result = some typeMismatchError ∧
    (GetrfDispatch env dtIn dtOut dims).trace = [] := by
  unfold GetrfDispatch
  rw [if_pos h]
  exact ⟨rfl, rfl⟩

/-- Witness for C5 at `F32` input against `F64` output. -/
theorem getrf_type_mismatch_no_device_work_witness :
    (GetrfDispatch allOkEnv .F32 .F64 [2, 2]).result = some typeMismatchError ∧
    (GetrfDispatch allOkEnv .F32 .F64 [2, 2]).trace = [] :=
  getrf_type_mismatch_no_device_work allOkEnv .F32 .F64 [2, 2] (by decide)

/-- C6: a dispatch whose `rows` or `cols` exceeds the 32-bit signed range
returns `kInvalidArgument` through the overflow-checked cast, under both
strategies, before issuing any call. -/
theorem getrf_dim_overflow_invalid_argument (env : Env) (dt : DataType)
    (dims : List Nat) (batch rows cols : Nat)
    (hdt : supportedType dt = true)
    (hsplit : SplitBatch2D dims = .ok (batch, rows, cols))
    (hov : 2 ^ 31 ≤ rows ∨ 2 ^ 31 ≤ cols) :
    (GetrfDispatch env dt dt dims).result = some castError ∧
    (GetrfDispatch env dt dt dims).trace = [] := by
  by_cases hp : batch > 1 ∧ rows = cols ∧ rows / batch ≤ 128
  · rw [dispatch_batched env dt dims batch rows cols hdt hsplit hp]
    have hc : 2 ^ 31 ≤ cols := by
      obtain ⟨_, he, _⟩ := hp
      omega
    unfold GetrfBatchedImpl
    rw [if_pos hc]
    exact ⟨rfl, rfl⟩
  · rw [dispatch_looped env dt dims batch rows cols hdt hsplit hp]
    unfold GetrfImpl
    by_cases hr : 2 ^ 31 ≤ rows
    · rw [if_pos hr]
      exact ⟨rfl, rfl⟩
    · have hc : 2 ^ 31 ≤ cols := by omega
      rw [if_neg hr, if_pos hc]
      exact ⟨rfl, rfl⟩

/-- Witness for C6 at `rows = cols = 2^31`, a single-matrix (looped) shape. -/
theorem getrf_dim_overflow_invalid_argument_witness :
    (GetrfDispatch allOkEnv .F64 .F64 [1, 2 ^ 31, 2 ^ 31]).result = some castError ∧
    (GetrfDispatch allOkEnv .F64 .F64 [1, 2 ^ 31, 2 ^ 31]).trace = [] :=
  getrf_dim_overflow_invalid_argument allOkEnv .F64 [1, 2 ^ 31, 2 ^ 31] 1 (2 ^ 31) (2 ^ 31)
    rfl rfl (Or.inl (by omega))

/-- C2 (amended): on a dispatch where validation, handle borrowing, scratch
allocation and every backend-call status succeed, and whose batch count fits
the 32-bit signed range, the dispatch returns success and the outputs are
fully populated for every matrix of the batch.  The per-matrix info codes
(`runInfo`/`batchedInfo`, e.g. positive for a singular matrix) are completely
unconstrained here, so a per-matrix numerical failure neither aborts the
remaining matrices nor the dispatch.  The 32-bit bound on the batch count is
forced: the counterexample below shows the unamended claim fails at
`batch = 2^32 + 2`, where the unchecked batch narrowing leaves every matrix
past the first two unprocessed while the dispatch still reports success. -/
theorem getrf_dispatch_full_batch_population (env : Env) (dt : DataType)
    (dims : List Nat) (batch rows cols : Nat)
    (hok : env.allOk) (hdt : supportedType dt = true)
    (hsplit : SplitBatch2D dims = .ok (batch, rows, cols))
    (hrows : rows < 2 ^ 31) (hcols : cols < 2 ^ 31) (hbatch : batch < 2 ^ 31) :
    (GetrfDispatch env dt dt dims).result = none ∧
    (GetrfDispatch env dt dt dims).infos.length = batch ∧
    ∀ i < batch, coversMatrix (GetrfDispatch env dt dt dims).trace i := by
  obtain ⟨lwork, hb⟩ := Option.isSome_iff_exists.mp hok.2.2.1
  by_cases hp : batch > 1 ∧ rows = cols ∧ rows / batch ≤ 128
  · rw [dispatch_batched env dt dims batch rows cols hdt hsplit hp]
    have hbi : toInt32 batch = (batch : Int) := toInt32_of_lt hbatch
    have hcover : ∀ tr : List Event, Event.batchedRun cols cols (toInt32 batch) ∈ tr →
        ∀ i < batch, coversMatrix tr i := by
      intro tr htr i hi
      refine Or.inr ⟨cols, cols, toInt32 batch, htr, ?_⟩
      rw [hbi]
      exact_mod_cast hi
    have hlen : ((List.range (toInt32 batch).toNat).map env.batchedInfo).length = batch := by
      simp [hbi]
    cases ha : env.aliased
    · rw [GetrfBatchedImpl_allOk_noalias env (sizeOfElem dt) batch cols hok hcols ha]
      exact ⟨rfl, hlen, hcover _ (by simp)⟩
    · rw [GetrfBatchedImpl_allOk_alias env (sizeOfElem dt) batch cols hok hcols ha]
      exact ⟨rfl, hlen, hcover _ (by simp)⟩
  · rw [dispatch_looped env dt dims batch rows cols hdt hsplit hp]
    have hcover : ∀ pre : List Event, ∀ i < batch,
        coversMatrix (pre ++ (List.range batch).map
          (fun j => Event.kernelRun j (j * (rows * cols)) (j * min rows cols) j)) i := by
      intro pre i hi
      refine Or.inl ⟨i * (rows * cols), i * min rows cols, i, ?_⟩
      exact List.mem_append_right _ (List.mem_map.mpr ⟨i, List.mem_range.mpr hi, rfl⟩)
    cases ha : env.aliased
    · rw [GetrfImpl_allOk_noalias env (sizeOfElem dt) batch rows cols lwork hok hb hrows hcols ha]
      exact ⟨rfl, by simp, hcover _⟩
    · rw [GetrfImpl_allOk_alias env (sizeOfElem dt) batch rows cols lwork hok hb hrows hcols ha]
      exact ⟨rfl, by simp, hcover _⟩

/-- C2 is refuted as stated: at `batch = 2^32 + 2` (shape `[2^32+2, 1, 1]`,
batched path) the dispatch passes validation, handle borrowing and scratch
allocation and still returns success, yet only `2` info codes are written
(`2 ≠ 2^32 + 2`) and matrix `2` is covered by no factorization call — the
batched backend Run received the narrowed count `2`, so the outputs are not
fully populated for every matrix in the batch. -/
theorem getrf_full_population_fails_at_large_batch :
    (GetrfDispatch allOkEnv .F32 .F32 [2 ^ 32 + 2, 1, 1]).result = none ∧
    (GetrfDispatch allOkEnv .F32 .F32 [2 ^ 32 + 2, 1, 1]).infos.length = 2 ∧
    (2 : Nat) ≠ 2 ^ 32 + 2 ∧
    ¬ coversMatrix (GetrfDispatch allOkEnv .F32 .F32 [2 ^ 32 + 2, 1, 1]).trace 2 := by
  have htr : (GetrfDispatch allOkEnv .F32 .F32 [2 ^ 32 + 2, 1, 1]).trace
      = [Event.borrowBlas, Event.allocate (8 * (2 ^ 32 + 2)),
         Event.memcpy (4 * ((2 ^ 32 + 2) * 1 * 1)),
         Event.makeBatchPointers 2 4, Event.batchedRun 1 1 2] := by decide
  refine ⟨by decide, by decide, by decide, ?_⟩
  rw [htr]
  intro h
  simp only [coversMatrix] at h
  rcases h with ⟨o, p, q, hmem⟩ | ⟨n, lda, b, hmem, hlt⟩
  · simp at hmem
  · simp at hmem
    obtain ⟨_, _, hb⟩ := hmem
    subst hb
    omega

/-- Witness for C2 at `dims = [3, 2, 2]` (batched path) on `allOkEnv`. -/
theorem getrf_dispatch_full_batch_population_witness :
    (GetrfDispatch allOkEnv .F32 .F32 [3, 2, 2]).result = none ∧
    (GetrfDispatch allOkEnv .F32 .F32 [3, 2, 2]).infos.length = 3 ∧
    ∀ i < 3, coversMatrix (GetrfDispatch allOkEnv .F32 .F32 [3, 2, 2]).trace i :=
  getrf_dispatch_full_batch_population allOkEnv .F32 [3, 2, 2] 3 2 2
    ⟨rfl, rfl, rfl, fun _ => rfl, rfl, fun _ => rfl, rfl, rfl⟩ rfl rfl
    (by omega) (by omega) (by omega)

/-- C3 is refuted as stated: with the scratch allocator returning empty, the
looped path does return `kUnknown`, but a backend call — the workspace-size
query issued before the allocation request — has already been invoked, so "no
backend call is invoked" is false. -/
theorem getrf_scratch_fail_backend_call_invoked :
    ((GetrfDispatch noAllocEnv .F32 .F32 [2, 2]).result.map FfiError.code
      = some .kUnknown) ∧
    ∃ e ∈ (GetrfDispatch noAllocEnv .F32 .F32 [2, 2]).trace, e.isBackendCall = true := by
  decide

/-- C3 (amended): when the scratch allocator returns empty, under either
strategy the dispatch returns `kUnknown` and no factorization call, device
copy or pointer-array build is ever issued; in the looped strategy the
workspace-size query (a backend call) has already been issued before the
allocation request. -/
theorem getrf_scratch_fail_no_further_device_work (env : Env) (dt : DataType)
    (dims : List Nat) (batch rows cols lwork : Nat)
    (halloc : ∀ b, env.allocOk b = false)
    (hdt : supportedType dt = true)
    (hsplit : SplitBatch2D dims = .ok (batch, rows, cols))
    (hrows : rows < 2 ^ 31) (hcols : cols < 2 ^ 31)
    (hbs : env.borrowSolverOk = true) (hbb : env.borrowBlasOk = true)
    (hbuf : env.bufferSize = some lwork) :
    ((GetrfDispatch env dt dt dims).result.map FfiError.code = some .kUnknown) ∧
    (∀ e ∈ (GetrfDispatch env dt dt dims).trace, e.isFactorization = false) ∧
    (∀ b, Event.memcpy b ∉ (GetrfDispatch env dt dt dims).trace) ∧
    (∀ c st, Event.makeBatchPointers c st ∉ (GetrfDispatch env dt dt dims).trace) := by
  by_cases hp : batch > 1 ∧ rows = cols ∧ rows / batch ≤ 128
  · rw [dispatch_batched env dt dims batch rows cols hdt hsplit hp]
    unfold GetrfBatchedImpl
    rw [if_neg (show ¬ (2 ^ 31 ≤ cols) by omega), if_pos hbb]
    dsimp only
    rw [if_neg (show ¬ (env.allocOk (8 * batch) = true) by simp [halloc])]
    simp [Event.isFactorization]
  · rw [dispatch_looped env dt dims batch rows cols hdt hsplit hp]
    unfold GetrfImpl
    rw [if_neg (show ¬ (2 ^ 31 ≤ rows) by omega),
      if_neg (show ¬ (2 ^ 31 ≤ cols) by omega), if_pos hbs, hbuf]
    dsimp only
    rw [if_neg (show ¬ (env.allocOk (sizeOfElem dt * lwork) = true) by simp [halloc])]
    simp [Event.isFactorization]

/-- Witness for the amended C3 on the looped path with `noAllocEnv`. -/
theorem getrf_scratch_fail_no_further_device_work_witness :
    ((GetrfDispatch noAllocEnv .F32 .F32 [2, 2]).result.map FfiError.code
      = some .kUnknown) ∧
    (∀ e ∈ (GetrfDispatch noAllocEnv .F32 .F32 [2, 2]).trace, e.isFactorization = false) ∧
    (∀ b, Event.memcpy b ∉ (GetrfDispatch noAllocEnv .F32 .F32 [2, 2]).trace) ∧
    (∀ c st, Event.makeBatchPointers c st ∉ (GetrfDispatch noAllocEnv .F32 .F32 [2, 2]).trace) :=
  getrf_scratch_fail_no_further_device_work noAllocEnv .F32 [2, 2] 1 2 2 16
    (fun _ => rfl) rfl rfl (by omega) (by omega) rfl rfl rfl

/-- C7: on an all-success dispatch, when the input and output buffers are
distinct allocations the full batch payload (`sizeof(T) * batch * rows * cols`
bytes) is copied device-to-device before any factorization call appears in
the trace; when they are the same allocation no copy is ever issued. -/
theorem getrf_copy_iff_distinct_buffers (env : Env) (dt : DataType)
    (dims : List Nat) (batch rows cols : Nat)
    (hok : env.allOk) (hdt : supportedType dt = true)
    (hsplit : SplitBatch2D dims = .ok (batch, rows, cols))
    (hrows : rows < 2 ^ 31) (hcols : cols < 2 ^ 31) :
    (env.aliased = false →
      ∃ pre post,
        (GetrfDispatch env dt dt dims).trace
          = pre ++ Event.memcpy (sizeOfElem dt * (batch * rows * cols)) :: post ∧
        ∀ e ∈ pre, e.isFactorization = false) ∧
    (env.aliased = true →
      ∀ b, Event.memcpy b ∉ (GetrfDispatch env dt dt dims).trace) := by
  obtain ⟨lwork, hb⟩ := Option.isSome_iff_exists.mp hok.2.2.1
  constructor
  · intro ha
    by_cases hp : batch > 1 ∧ rows = cols ∧ rows / batch ≤ 128
    · obtain ⟨hp1, hrc, hp3⟩ := hp
      subst hrc
      rw [dispatch_batched env dt dims batch rows rows hdt hsplit ⟨hp1, rfl, hp3⟩,
        GetrfBatchedImpl_allOk_noalias env (sizeOfElem dt) batch rows hok hrows ha]
      exact ⟨[Event.borrowBlas, Event.allocate (8 * batch)],
        [Event.makeBatchPointers (toInt32 batch) (sizeOfElem dt * (rows * rows)),
         Event.batchedRun rows rows (toInt32 batch)], rfl,
        by simp [Event.isFactorization]⟩
    · rw [dispatch_looped env dt dims batch rows cols hdt hsplit hp,
        GetrfImpl_allOk_noalias env (sizeOfElem dt) batch rows cols lwork hok hb hrows hcols ha]
      exact ⟨[Event.borrowSolver, Event.bufferSizeQuery rows cols,
          Event.allocate (sizeOfElem dt * lwork)],
        (List.range batch).map
          (fun i => Event.kernelRun i (i * (rows * cols)) (i * min rows cols) i), rfl,
        by simp [Event.isFactorization]⟩
  · intro ha b
    by_cases hp : batch > 1 ∧ rows = cols ∧ rows / batch ≤ 128
    · obtain ⟨hp1, hrc, hp3⟩ := hp
      subst hrc
      rw [dispatch_batched env dt dims batch rows rows hdt hsplit ⟨hp1, rfl, hp3⟩,
        GetrfBatchedImpl_allOk_alias env (sizeOfElem dt) batch rows hok hrows ha]
      simp
    · rw [dispatch_looped env dt dims batch rows cols hdt hsplit hp,
        GetrfImpl_allOk_alias env (sizeOfElem dt) batch rows cols lwork hok hb hrows hcols ha]
      simp

/-- Witness for C7 at `dims = [3, 2, 2]` on `allOkEnv` (distinct buffers). -/
theorem getrf_copy_iff_distinct_buffers_witness :
    (allOkEnv.aliased = false →
      ∃ pre post,
        (GetrfDispatch allOkEnv .F32 .F32 [3, 2, 2]).trace
          = pre ++ Event.memcpy (sizeOfElem .F32 * (3 * 2 * 2)) :: post ∧
        ∀ e ∈ pre, e.isFactorization = false) ∧
    (allOkEnv.aliased = true →
      ∀ b, Event.memcpy b ∉ (GetrfDispatch allOkEnv .F32 .F32 [3, 2, 2]).trace) :=
  getrf_copy_iff_distinct_buffers allOkEnv .F32 [3, 2, 2] 3 2 2
    ⟨rfl, rfl, rfl, fun _ => rfl, rfl, fun _ => rfl, rfl, rfl⟩ rfl rfl
    (by omega) (by omega)

/-- C8: in the looped strategy on an all-success dispatch, the single-matrix
Run is invoked exactly once per matrix (`batch` times in total), the `i`-th
call seeing the buffer cursor advanced to `i * (rows * cols)` elements, the
pivot cursor to `i * min rows cols` elements and the info cursor to `i`
elements.  The `batch < 2^31` bound confines the statement to the regime
where the source's 32-bit loop index has defined behavior (see `runLoop`);
beyond it the source's loop index wraps and the iteration is not modelled. -/
theorem getrf_looped_run_once_per_matrix (env : Env) (dt : DataType)
    (dims : List Nat) (batch rows cols : Nat)
    (hok : env.allOk) (hdt : supportedType dt = true)
    (hsplit : SplitBatch2D dims = .ok (batch, rows, cols))
    (hnp : ¬ (batch > 1 ∧ rows = cols ∧ rows / batch ≤ 128))
    (hrows : rows < 2 ^ 31) (hcols : cols < 2 ^ 31) (hbatch : batch < 2 ^ 31) :
    (GetrfDispatch env dt dt dims).result = none ∧
    (GetrfDispatch env dt dt dims).trace.filter Event.isKernelRun
      = (List.range batch).map
          (fun i => Event.kernelRun i (i * (rows * cols)) (i * min rows cols) i) := by
  obtain ⟨lwork, hb⟩ := Option.isSome_iff_exists.mp hok.2.2.1
  rw [dispatch_looped env dt dims batch rows cols hdt hsplit hnp]
  have hmap : ((List.range batch).map
      (fun i => Event.kernelRun i (i * (rows * cols)) (i * min rows cols) i)).filter
        Event.isKernelRun
      = (List.range batch).map
          (fun i => Event.kernelRun i (i * (rows * cols)) (i * min rows cols) i) := by
    rw [List.filter_eq_self]
    intro e he
    obtain ⟨i, _, rfl⟩ := List.mem_map.mp he
    rfl
  cases ha : env.aliased
  · rw [GetrfImpl_allOk_noalias env (sizeOfElem dt) batch rows cols lwork hok hb hrows hcols ha]
    refine ⟨rfl, ?_⟩
    dsimp only
    rw [List.filter_append, hmap]
    rfl
  · rw [GetrfImpl_allOk_alias env (sizeOfElem dt) batch rows cols lwork hok hb hrows hcols ha]
    refine ⟨rfl, ?_⟩
    dsimp only
    rw [List.filter_append, hmap]
    rfl

/-- Witness for C8 at `dims = [2, 2]` (batch 1, looped) on `allOkEnv`. -/
theorem getrf_looped_run_once_per_matrix_witness :
    (GetrfDispatch allOkEnv .F32 .F32 [2, 2]).result = none ∧
    (GetrfDispatch allOkEnv .F32 .F32 [2, 2]).trace.filter Event.isKernelRun
      = (List.range 1).map
          (fun i => Event.kernelRun i (i * (2 * 2)) (i * min 2 2) i) :=
  getrf_looped_run_once_per_matrix allOkEnv .F32 [2, 2] 1 2 2
    ⟨rfl, rfl, rfl, fun _ => rfl, rfl, fun _ => rfl, rfl, rfl⟩ rfl rfl
    (by decide) (by omega) (by omega) (by omega)

/-- C9: whenever the batched implementation is invoked by the dispatcher,
`rows = cols` holds (so the 32-bit overflow check performed on `cols` alone
also bounds `rows`); the dispatch outcome is that of `GetrfBatchedImpl`
applied to `batch` and `cols` only — `rows` is not an argument — and on an
all-success distinct-buffer dispatch the trace uses `cols` for the matrix
order, the leading dimension, the copy size and the pointer stride. -/
theorem getrf_batched_square_uses_cols (env : Env) (dt : DataType)
    (dims : List Nat) (batch rows cols : Nat)
    (hdt : supportedType dt = true)
    (hsplit : SplitBatch2D dims = .ok (batch, rows, cols))
    (hp : batch > 1 ∧ rows = cols ∧ rows / batch ≤ 128) :
    rows = cols ∧
    GetrfDispatch env dt dt dims = GetrfBatchedImpl env (sizeOfElem dt) batch cols ∧
    (env.allOk → cols < 2 ^ 31 → env.aliased = false →
      (GetrfDispatch env dt dt dims).trace
        = [Event.borrowBlas, Event.allocate (8 * batch),
           Event.memcpy (sizeOfElem dt * (batch * cols * cols)),
           Event.makeBatchPointers (toInt32 batch) (sizeOfElem dt * (cols * cols)),
           Event.batchedRun cols cols (toInt32 batch)]) := by
  refine ⟨hp.2.1, dispatch_batched env dt dims batch rows cols hdt hsplit hp, ?_⟩
  intro hok hcols ha
  rw [dispatch_batched env dt dims batch rows cols hdt hsplit hp,
    GetrfBatchedImpl_allOk_noalias env (sizeOfElem dt) batch cols hok hcols ha]

/-- Witness for C9 at `dims = [3, 2, 2]` on `allOkEnv`. -/
theorem getrf_batched_square_uses_cols_witness :
    (2 : Nat) = 2 ∧
    GetrfDispatch allOkEnv .F32 .F32 [3, 2, 2]
      = GetrfBatchedImpl allOkEnv (sizeOfElem .F32) 3 2 ∧
    (allOkEnv.allOk → (2 : Nat) < 2 ^ 31 → allOkEnv.aliased = false →
      (GetrfDispatch allOkEnv .F32 .F32 [3, 2, 2]).trace
        = [Event.borrowBlas, Event.allocate (8 * 3),
           Event.memcpy (sizeOfElem .F32 * (3 * 2 * 2)),
           Event.makeBatchPointers (toInt32 3) (sizeOfElem .F32 * (2 * 2)),
           Event.batchedRun 2 2 (toInt32 3)]) :=
  getrf_batched_square_uses_cols allOkEnv .F32 [3, 2, 2] 3 2 2 rfl rfl
    (by refine ⟨by omega, rfl, by omega⟩)

/-- C10: the 64-bit batch count is never overflow-checked.  At
`batch = 2^32 + 2`, which exceeds the 32-bit signed range, the dispatch does
not return `InvalidArgument`: it succeeds, and both the pointer-array build
and the batched backend Run receive the silently narrowed value `2` instead
of the true batch count. -/
theorem getrf_batch_count_truncated :
    (2 ^ 31 - 1 : Nat) < 2 ^ 32 + 2 ∧
    toInt32 (2 ^ 32 + 2) = 2 ∧
    (2 : Int) ≠ ((2 ^ 32 + 2 : Nat) : Int) ∧
    (GetrfDispatch allOkEnv .F32 .F32 [2 ^ 32 + 2, 1, 1]).result = none ∧
    Event.makeBatchPointers 2 4
      ∈ (GetrfDispatch allOkEnv .F32 .F32 [2 ^ 32 + 2, 1, 1]).trace ∧
    Event.batchedRun 1 1 2
      ∈ (GetrfDispatch allOkEnv .F32 .F32 [2 ^ 32 + 2, 1, 1]).trace := by
  decide

end SolverFfi
